import Mathlib

/-!
Verification of the `juce_global_hotkeys` module: neutral key-code translation
tables, the per-OS registration backends, and the named hotkey registry.

The definitions below are shallow embeddings of the C++ sources:
  * `hotkeys/juce_KeyCode.cpp` — the Windows and macOS translation tables;
  * `native/juce_GlobalHotKey_windows.cpp` — the exclusive-claim (RegisterHotKey)
    backend;
  * the low-level keyboard-hook backend variant (the alternative Windows
    strategy);
  * `native/juce_GlobalHotKey_mac.cpp` — the dual-strategy macOS backend
    (Carbon and CGEventTap);
  * `hotkeys/juce_GlobalHotKeyManager.cpp` — the named registry.

Machine integers are modelled as `Int` (C++ `int` key codes) and `Nat`
(unsigned flag masks); the values involved stay far below any overflow
boundary, matching the source. Fallible OS primitives are modelled by
explicit oracle records, and each backend operation returns the list of OS
calls it performed so that "no OS primitive was invoked" is a provable
statement.
-/

/-! ### Neutral key-code constants (juce_KeyCode.cpp, anonymous enum) -/

def spaceKey : Int := 32
def returnKey : Int := 0x1000d
def escapeKey : Int := 0x1001b
def backspaceKey : Int := 0x10008
def deleteKey : Int := 0x1007f
def tabKey : Int := 0x10009
def leftKey : Int := 0x10012
def rightKey : Int := 0x10014
def upKey : Int := 0x10013
def downKey : Int := 0x10015
def homeKey : Int := 0x10010
def endKey : Int := 0x10011
def pageUpKey : Int := 0x10016
def pageDownKey : Int := 0x10017
def insertKey : Int := 0x10019
def F1Key : Int := 0x20001
def F12Key : Int := 0x2000c

/-! ### Windows virtual-key constants (WinUser.h values used by the source) -/

def VK_F1 : Int := 0x70
def VK_F12 : Int := 0x7B
def VK_SPACE : Int := 0x20
def VK_RETURN : Int := 0x0D
def VK_ESCAPE : Int := 0x1B
def VK_BACK : Int := 0x08
def VK_DELETE : Int := 0x2E
def VK_TAB : Int := 0x09
def VK_LEFT : Int := 0x25
def VK_RIGHT : Int := 0x27
def VK_UP : Int := 0x26
def VK_DOWN : Int := 0x28
def VK_HOME : Int := 0x24
def VK_END : Int := 0x23
def VK_PRIOR : Int := 0x21
def VK_NEXT : Int := 0x22
def VK_INSERT : Int := 0x2D

/-! ### macOS virtual-key constants (HIToolbox Events.h values used by the source) -/

def kVK_F1 : Int := 0x7A
def kVK_F12 : Int := 0x6F
def kVK_Space : Int := 0x31
def kVK_Return : Int := 0x24
def kVK_Escape : Int := 0x35
def kVK_Delete : Int := 0x33
def kVK_ForwardDelete : Int := 0x75
def kVK_Tab : Int := 0x30
def kVK_LeftArrow : Int := 0x7B
def kVK_RightArrow : Int := 0x7C
def kVK_UpArrow : Int := 0x7E
def kVK_DownArrow : Int := 0x7D
def kVK_Home : Int := 0x73
def kVK_End : Int := 0x77
def kVK_PageUp : Int := 0x74
def kVK_PageDown : Int := 0x79

/-- First-match association lookup with the 0 sentinel as default; this models
a C `switch` whose `default` returns 0. -/
def lookupD : List (Int × Int) → Int → Int
  | [], _ => 0
  | (a, b) :: r, k => if k = a then b else lookupD r k

/-! ### KeyCode::getPlatformKeyCode / fromPlatformKeyCode, JUCE_WINDOWS branch -/

/-- The special-key `switch` of `KeyCode::getPlatformKeyCode` on Windows. -/
def winSpecialToVk : List (Int × Int) :=
  [(spaceKey, VK_SPACE), (returnKey, VK_RETURN), (escapeKey, VK_ESCAPE),
   (backspaceKey, VK_BACK), (deleteKey, VK_DELETE), (tabKey, VK_TAB),
   (leftKey, VK_LEFT), (rightKey, VK_RIGHT), (upKey, VK_UP), (downKey, VK_DOWN),
   (homeKey, VK_HOME), (endKey, VK_END), (pageUpKey, VK_PRIOR),
   (pageDownKey, VK_NEXT), (insertKey, VK_INSERT)]

/-- The special-key `switch` of `KeyCode::fromPlatformKeyCode` on Windows. -/
def winVkToSpecial : List (Int × Int) :=
  [(VK_SPACE, spaceKey), (VK_RETURN, returnKey), (VK_ESCAPE, escapeKey),
   (VK_BACK, backspaceKey), (VK_DELETE, deleteKey), (VK_TAB, tabKey),
   (VK_LEFT, leftKey), (VK_RIGHT, rightKey), (VK_UP, upKey), (VK_DOWN, downKey),
   (VK_HOME, homeKey), (VK_END, endKey), (VK_PRIOR, pageUpKey),
   (VK_NEXT, pageDownKey), (VK_INSERT, insertKey)]

/-- `KeyCode::getPlatformKeyCode`, `JUCE_WINDOWS` branch: letters and digits
map by identity, function keys by offset to `VK_F1`, special keys by the
switch; everything else returns the 0 sentinel. -/
def winGetPlatformKeyCode (keyCode : Int) : Int :=
  if 65 ≤ keyCode ∧ keyCode ≤ 90 then keyCode
  else if 48 ≤ keyCode ∧ keyCode ≤ 57 then keyCode
  else if F1Key ≤ keyCode ∧ keyCode ≤ F12Key then VK_F1 + (keyCode - F1Key)
  else lookupD winSpecialToVk keyCode

/-- `KeyCode::fromPlatformKeyCode`, `JUCE_WINDOWS` branch (the resulting
`KeyCode`'s integer value; the invalid `KeyCode()` is the 0 sentinel). -/
def winFromPlatformKeyCode (platformKeyCode : Int) : Int :=
  if 65 ≤ platformKeyCode ∧ platformKeyCode ≤ 90 then platformKeyCode
  else if 48 ≤ platformKeyCode ∧ platformKeyCode ≤ 57 then platformKeyCode
  else if VK_F1 ≤ platformKeyCode ∧ platformKeyCode ≤ VK_F12 then
    F1Key + (platformKeyCode - VK_F1)
  else lookupD winVkToSpecial platformKeyCode

/-! ### KeyCode::getPlatformKeyCode / fromPlatformKeyCode, JUCE_MAC branch -/

/-- The letter `switch` of `KeyCode::getPlatformKeyCode` on macOS
(ANSI virtual key codes follow physical position, not alphabetical order). -/
def macLetterToVk : List (Int × Int) :=
  [(65, 0x00), (83, 0x01), (68, 0x02), (70, 0x03), (72, 0x04), (71, 0x05),
   (90, 0x06), (88, 0x07), (67, 0x08), (86, 0x09), (66, 0x0B), (81, 0x0C),
   (87, 0x0D), (69, 0x0E), (82, 0x0F), (89, 0x10), (84, 0x11), (79, 0x1F),
   (85, 0x20), (73, 0x22), (80, 0x23), (76, 0x25), (74, 0x26), (75, 0x28),
   (78, 0x2D), (77, 0x2E)]

/-- The digit `switch` of `KeyCode::getPlatformKeyCode` on macOS. -/
def macDigitToVk : List (Int × Int) :=
  [(49, 0x12), (50, 0x13), (51, 0x14), (52, 0x15), (54, 0x16), (53, 0x17),
   (57, 0x19), (55, 0x1A), (56, 0x1C), (48, 0x1D)]

/-- The special-key `switch` of `KeyCode::getPlatformKeyCode` on macOS
(note: `insertKey` has no case and falls to the 0 default). -/
def macSpecialToVk : List (Int × Int) :=
  [(spaceKey, kVK_Space), (returnKey, kVK_Return), (escapeKey, kVK_Escape),
   (backspaceKey, kVK_Delete), (deleteKey, kVK_ForwardDelete), (tabKey, kVK_Tab),
   (leftKey, kVK_LeftArrow), (rightKey, kVK_RightArrow), (upKey, kVK_UpArrow),
   (downKey, kVK_DownArrow), (homeKey, kVK_Home), (endKey, kVK_End),
   (pageUpKey, kVK_PageUp), (pageDownKey, kVK_PageDown)]

/-- The letter-and-digit `switch` of `KeyCode::fromPlatformKeyCode` on macOS,
keyed by the macOS virtual key code. -/
def macVkToLetterDigit : List (Int × Int) :=
  [(0x00, 65), (0x01, 83), (0x02, 68), (0x03, 70), (0x04, 72), (0x05, 71),
   (0x06, 90), (0x07, 88), (0x08, 67), (0x09, 86), (0x0B, 66), (0x0C, 81),
   (0x0D, 87), (0x0E, 69), (0x0F, 82), (0x10, 89), (0x11, 84), (0x1F, 79),
   (0x20, 85), (0x22, 73), (0x23, 80), (0x25, 76), (0x26, 74), (0x28, 75),
   (0x2D, 78), (0x2E, 77),
   (0x12, 49), (0x13, 50), (0x14, 51), (0x15, 52), (0x16, 54), (0x17, 53),
   (0x19, 57), (0x1A, 55), (0x1C, 56), (0x1D, 48)]

/-- The special-key `switch` of `KeyCode::fromPlatformKeyCode` on macOS. -/
def macVkToSpecial : List (Int × Int) :=
  [(kVK_Space, spaceKey), (kVK_Return, returnKey), (kVK_Escape, escapeKey),
   (kVK_Delete, backspaceKey), (kVK_ForwardDelete, deleteKey), (kVK_Tab, tabKey),
   (kVK_LeftArrow, leftKey), (kVK_RightArrow, rightKey), (kVK_UpArrow, upKey),
   (kVK_DownArrow, downKey), (kVK_Home, homeKey), (kVK_End, endKey),
   (kVK_PageUp, pageUpKey), (kVK_PageDown, pageDownKey)]

/-- `KeyCode::getPlatformKeyCode`, `JUCE_MAC` branch: letters and digits via
the enumerated position tables, function keys by arithmetic offset to
`kVK_F1`, then the special-key switch. -/
def macGetPlatformKeyCode (keyCode : Int) : Int :=
  if 65 ≤ keyCode ∧ keyCode ≤ 90 then lookupD macLetterToVk keyCode
  else if 48 ≤ keyCode ∧ keyCode ≤ 57 then lookupD macDigitToVk keyCode
  else if F1Key ≤ keyCode ∧ keyCode ≤ F12Key then kVK_F1 + (keyCode - F1Key)
  else lookupD macSpecialToVk keyCode

/-- `KeyCode::fromPlatformKeyCode`, `JUCE_MAC` branch. The first switch covers
letters and digits; the function-key range test `kVK_F1 ≤ p ∧ p ≤ kVK_F12`
is kept exactly as written in the source (with `kVK_F1 = 0x7A > 0x6F =
kVK_F12`); then the special-key switch. -/
def macFromPlatformKeyCode (platformKeyCode : Int) : Int :=
  if lookupD macVkToLetterDigit platformKeyCode ≠ 0 then
    lookupD macVkToLetterDigit platformKeyCode
  else if kVK_F1 ≤ platformKeyCode ∧ platformKeyCode ≤ kVK_F12 then
    F1Key + (platformKeyCode - kVK_F1)
  else lookupD macVkToSpecial platformKeyCode

/-! ### Round-trip lemmas for the translation tables -/

theorem lookupD_ne_zero_mem (t : List (Int × Int)) (k : Int)
    (h : lookupD t k ≠ 0) : k ∈ t.map Prod.fst := by
  induction t with
  | nil => exact absurd rfl h
  | cons p r ih =>
    obtain ⟨a, b⟩ := p
    by_cases hk : k = a
    · simp [hk]
    · simp only [lookupD, if_neg hk] at h
      simpa [hk] using ih h

theorem winRoundTrip (k : Int) (h : winGetPlatformKeyCode k ≠ 0) :
    winFromPlatformKeyCode (winGetPlatformKeyCode k) = k := by
  by_cases h1 : 65 ≤ k ∧ k ≤ 90
  · obtain ⟨ha, hb⟩ := h1
    interval_cases k <;> decide
  · by_cases h2 : 48 ≤ k ∧ k ≤ 57
    · obtain ⟨ha, hb⟩ := h2
      interval_cases k <;> decide
    · by_cases h3 : F1Key ≤ k ∧ k ≤ F12Key
      · obtain ⟨ha, hb⟩ := h3
        rw [show F1Key = 0x20001 from rfl] at ha
        rw [show F12Key = 0x2000c from rfl] at hb
        interval_cases k <;> decide
      · have hg : winGetPlatformKeyCode k = lookupD winSpecialToVk k := by
          simp [winGetPlatformKeyCode, h1, h2, h3]
        rw [hg] at h
        have hm := lookupD_ne_zero_mem _ _ h
        fin_cases hm <;> decide

theorem macRoundTripNonFunction (k : Int) (h : macGetPlatformKeyCode k ≠ 0)
    (hf : ¬(F1Key ≤ k ∧ k ≤ F12Key)) :
    macFromPlatformKeyCode (macGetPlatformKeyCode k) = k := by
  by_cases h1 : 65 ≤ k ∧ k ≤ 90
  · obtain ⟨ha, hb⟩ := h1
    interval_cases k <;> decide
  · by_cases h2 : 48 ≤ k ∧ k ≤ 57
    · obtain ⟨ha, hb⟩ := h2
      interval_cases k <;> decide
    · have hg : macGetPlatformKeyCode k = lookupD macSpecialToVk k := by
        simp [macGetPlatformKeyCode, h1, h2, hf]
      rw [hg] at h
      have hm := lookupD_ne_zero_mem _ _ h
      fin_cases hm <;> decide

/-- C1: the claim states the platform round-trip
`fromPlatformKeyCode (getPlatformKeyCode K) = K` for every mapped neutral
code on both translation tables. It fails on the macOS table at `KeyCode::F2`
(neutral `0x20002`): the conversion maps it to `kVK_F1 + 1 = 0x7B`, which is
`kVK_LeftArrow`, so the reverse table returns `leftKey`, not F2. -/
theorem c1_roundTrip_counterexample :
    macGetPlatformKeyCode 0x20002 ≠ 0 ∧
    macFromPlatformKeyCode (macGetPlatformKeyCode 0x20002) ≠ 0x20002 := by
  decide

/-- C1 (amended): the round-trip `fromPlatformKeyCode (getPlatformKeyCode K)
= K` holds for every mapped neutral code on the Windows table, and on the
macOS table for every mapped neutral code outside the function-key range
`F1Key..F12Key` (whose arithmetic conversion does not match the
non-contiguous macOS function-key numbering). -/
theorem c1_roundTrip_amended :
    (∀ k : Int, winGetPlatformKeyCode k ≠ 0 →
      winFromPlatformKeyCode (winGetPlatformKeyCode k) = k) ∧
    (∀ k : Int, macGetPlatformKeyCode k ≠ 0 → ¬(F1Key ≤ k ∧ k ≤ F12Key) →
      macFromPlatformKeyCode (macGetPlatformKeyCode k) = k) :=
  ⟨winRoundTrip, macRoundTripNonFunction⟩

/-- C1 witness: the amended round-trip evaluated at the concrete mapped key
`G` (neutral 71) on both tables. -/
theorem c1_roundTrip_amended_witness :
    winFromPlatformKeyCode (winGetPlatformKeyCode 71) = 71 ∧
    macFromPlatformKeyCode (macGetPlatformKeyCode 71) = 71 :=
  ⟨c1_roundTrip_amended.1 71 (by decide),
   c1_roundTrip_amended.2 71 (by decide) (by decide)⟩

/-! ### ModifierKeys

The `juce_ModifierKeys` sources are not part of this snapshot (only their
uses are), so the value type is modelled from the spec. -/

/-- Modelled from the spec: `ModifierKeys` — "immutable bitmask value" over
{control, shift, alt, command/meta}, union-combinable (the file
`juce_ModifierKeys.h/.cpp` is missing from the snapshot). Each flag is one
field; `getRawFlags` exposes the bitmask. -/
structure ModifierKeys where
  ctrl : Bool
  shift : Bool
  alt : Bool
  command : Bool
  deriving DecidableEq, Repr

/-- Modelled from the spec: the raw bitmask of a `ModifierKeys` value
(one distinct bit per flag, as in JUCE's modifier flag constants). -/
def ModifierKeys.getRawFlags (m : ModifierKeys) : Nat :=
  (if m.shift then 1 else 0) ||| (if m.ctrl then 2 else 0) |||
  (if m.alt then 4 else 0) ||| (if m.command then 16 else 0)

def modifierKeysNone : ModifierKeys := ⟨false, false, false, false⟩

/-! ### CGEventTap flag masks (CoreGraphics constants used by the source) -/

def kCGEventFlagMaskShift : Nat := 0x20000
def kCGEventFlagMaskControl : Nat := 0x40000
def kCGEventFlagMaskAlternate : Nat := 0x80000
def kCGEventFlagMaskCommand : Nat := 0x100000

/-- `PlatformSpecificData::convertModifiersToCG` (juce_GlobalHotKey_mac.cpp):
ors together the CoreGraphics flag masks for each pressed modifier. -/
def convertModifiersToCG (modifiers : ModifierKeys) : Nat :=
  let f : Nat := 0
  let f := if modifiers.command then f ||| kCGEventFlagMaskCommand else f
  let f := if modifiers.shift then f ||| kCGEventFlagMaskShift else f
  let f := if modifiers.alt then f ||| kCGEventFlagMaskAlternate else f
  let f := if modifiers.ctrl then f ||| kCGEventFlagMaskControl else f
  f

/-! ### Carbon modifier masks and key conversion (juce_GlobalHotKey_mac.cpp) -/

def cmdKeyMask : Nat := 0x100
def shiftKeyMask : Nat := 0x200
def optionKeyMask : Nat := 0x800
def controlKeyMask : Nat := 0x1000

/-- `PlatformSpecificData::convertModifiersToCarbon`. -/
def convertModifiersToCarbon (modifiers : ModifierKeys) : Nat :=
  let f : Nat := 0
  let f := if modifiers.command then f ||| cmdKeyMask else f
  let f := if modifiers.shift then f ||| shiftKeyMask else f
  let f := if modifiers.alt then f ||| optionKeyMask else f
  let f := if modifiers.ctrl then f ||| controlKeyMask else f
  f

/-- The punctuation / keypad / special-key `switch` of
`PlatformSpecificData::convertKeyCodeToCarbon`. -/
def carbonSwitchTable : List (Int × Int) :=
  [(91, 0x21), (93, 0x1E), (59, 0x29), (39, 0x27), (44, 0x2B), (46, 0x2F),
   (47, 0x2C), (92, 0x2A), (96, 0x32), (45, 0x1B), (61, 0x18),
   (0x60000, 0x52), (0x60001, 0x53), (0x60002, 0x54), (0x60003, 0x55),
   (0x60004, 0x56), (0x60005, 0x57), (0x60006, 0x58), (0x60007, 0x59),
   (0x60008, 0x5B), (0x60009, 0x5C),
   (spaceKey, kVK_Space), (returnKey, kVK_Return), (escapeKey, kVK_Escape),
   (backspaceKey, kVK_Delete), (deleteKey, kVK_ForwardDelete), (tabKey, kVK_Tab),
   (leftKey, kVK_LeftArrow), (rightKey, kVK_RightArrow), (upKey, kVK_UpArrow),
   (downKey, kVK_DownArrow), (homeKey, kVK_Home), (endKey, kVK_End),
   (pageUpKey, kVK_PageUp), (pageDownKey, kVK_PageDown)]

/-- `PlatformSpecificData::convertKeyCodeToCarbon` (juce_GlobalHotKey_mac.cpp):
letters and digits via the enumerated ANSI tables, function keys by offset to
`kVK_F1`, then the punctuation/keypad/special switch; default 0. -/
def convertKeyCodeToCarbon (keyCode : Int) : Int :=
  if 65 ≤ keyCode ∧ keyCode ≤ 90 then lookupD macLetterToVk keyCode
  else if 48 ≤ keyCode ∧ keyCode ≤ 57 then lookupD macDigitToVk keyCode
  else if F1Key ≤ keyCode ∧ keyCode ≤ F12Key then kVK_F1 + (keyCode - F1Key)
  else lookupD carbonSwitchTable keyCode

/-- `PlatformSpecificData::convertKeyCodeToCG`: "Same mapping as Carbon since
CGKeyCode uses the same values". -/
def convertKeyCodeToCG (keyCode : Int) : Int :=
  convertKeyCodeToCarbon keyCode

/-- `PlatformSpecificData::matchesRegisteredHotkey` (juce_GlobalHotKey_mac.cpp,
CGEventTap path): the event's native key code must equal the converted
registered key exactly, and the converted registered modifier bits must be a
subset of the observed event flags (`(flags & expected) == expected`). -/
def matchesRegisteredHotkey (registeredKeyCode : Int)
    (registeredModifiers : ModifierKeys) (eventKeyCode : Int)
    (eventFlags : Nat) : Bool :=
  (eventKeyCode == convertKeyCodeToCG registeredKeyCode) &&
  ((eventFlags &&& convertModifiersToCG registeredModifiers) ==
    convertModifiersToCG registeredModifiers)

theorem land_lor_superset (f g e : Nat) (h : f &&& e = e) :
    (f ||| g) &&& e = e := by
  apply Nat.eq_of_testBit_eq
  intro i
  have hi : (f &&& e).testBit i = e.testBit i := by rw [h]
  rw [Nat.testBit_land] at hi
  rw [Nat.testBit_land, Nat.testBit_lor]
  cases he : e.testBit i
  · simp
  · rw [he] at hi
    simp only [Bool.and_true] at hi
    simp [hi]

/-- C5: the CGEventTap match predicate requires exact native key equality and
the registered modifier bits to be a subset of the observed flags, and it is
monotone in the observed flags: adding any extra bits to a matching flag set
never turns the match into a non-match. -/
theorem c5_subsetMatch_monotone (registeredKeyCode : Int)
    (registeredModifiers : ModifierKeys) (eventKeyCode : Int)
    (eventFlags extraBits : Nat)
    (h : matchesRegisteredHotkey registeredKeyCode registeredModifiers
          eventKeyCode eventFlags = true) :
    matchesRegisteredHotkey registeredKeyCode registeredModifiers
      eventKeyCode (eventFlags ||| extraBits) = true := by
  unfold matchesRegisteredHotkey at h ⊢
  rw [Bool.and_eq_true] at h ⊢
  obtain ⟨h1, h2⟩ := h
  refine ⟨h1, ?_⟩
  rw [beq_iff_eq] at h2 ⊢
  exact land_lor_superset _ _ _ h2

/-- C5 witness: Command+Shift+G matches its exact flag set, and still matches
after an unrelated extra observed bit is added. -/
theorem c5_subsetMatch_monotone_witness :
    matchesRegisteredHotkey 71 ⟨false, true, false, true⟩ 5
      (0x120000 ||| 0x1) = true :=
  c5_subsetMatch_monotone 71 ⟨false, true, false, true⟩ 5 0x120000 0x1
    (by decide)

/-! ### OS primitives and oracles

Each backend operation returns, besides its result and the new state, the
list of OS primitives it invoked, so that "fails before any OS call" and
"first success wins" are provable statements. An oracle record fixes the
outcome of each fallible OS primitive. -/

inductive OsCall where
  | cgEventTapCreate
  | cfMachPortCreateRunLoopSource
  | cfRunLoopAddSource
  | cgEventTapEnable
  | registerEventHotKey
  | installApplicationEventHandler
  | unregisterEventHotKey
  | removeEventHandler
  | setWindowsHookEx
  | unhookWindowsHookEx
  | winRegisterHotKey
  | winUnregisterHotKey
  deriving DecidableEq, Repr

/-! ### macOS dual-strategy backend (juce_GlobalHotKey_mac.cpp) -/

/-- Outcomes of the fallible macOS OS primitives. -/
structure MacOracle where
  tapCreateOk : Bool
  runLoopSourceOk : Bool
  registerEventHotKeyOk : Bool
  installHandlerOk : Bool
  deriving DecidableEq, Repr

/-- The process-wide static state of the macOS backend: the size of the
`carbonHotkeys` map, whether `globalCarbonEventHandlerRef` is installed, and
the `nextCarbonHotkeyId` counter. -/
structure MacGlobal where
  carbonCount : Nat
  handlerInstalled : Bool
  nextCarbonHotkeyId : Nat
  deriving DecidableEq, Repr

/-- The per-binding state of `GlobalHotKey::PlatformSpecificData` on macOS.
Pointer-valued resources are modelled by ownership booleans
(`true` = non-null / present). -/
structure MacBinding where
  isRegistered : Bool
  usingCarbonAPI : Bool
  usingCGEventTap : Bool
  eventTap : Bool
  eventSource : Bool
  inCgMap : Bool
  carbonHotKeyRef : Bool
  inCarbonMap : Bool
  registeredKeyCode : Int
  registeredModifiers : ModifierKeys
  deriving DecidableEq, Repr

/-- A fresh, never-registered `PlatformSpecificData` instance. -/
def macBinding0 : MacBinding :=
  ⟨false, false, false, false, false, false, false, false, 0, modifierKeysNone⟩

def macGlobal0 : MacGlobal := ⟨0, false, 1⟩

def macOracleAllOk : MacOracle := ⟨true, true, true, true⟩

/-- `PlatformSpecificData::registerWithCGEventTap`: stores the key and
modifiers, creates the event tap, the run-loop source (releasing the tap if
that fails), adds the source to the run loop, enables the tap and enters the
`cgEventTapHotkeys` map. -/
def registerWithCGEventTap (o : MacOracle) (b : MacBinding) (keyCode : Int)
    (modifiers : ModifierKeys) : Bool × MacBinding × List OsCall :=
  let b := { b with registeredKeyCode := keyCode,
                    registeredModifiers := modifiers }
  if ¬ o.tapCreateOk then
    (false, b, [OsCall.cgEventTapCreate])
  else
    let b := { b with eventTap := true }
    if ¬ o.runLoopSourceOk then
      (false, { b with eventTap := false },
        [OsCall.cgEventTapCreate, OsCall.cfMachPortCreateRunLoopSource])
    else
      (true, { b with eventSource := true, inCgMap := true },
        [OsCall.cgEventTapCreate, OsCall.cfMachPortCreateRunLoopSource,
         OsCall.cfRunLoopAddSource, OsCall.cgEventTapEnable])

/-- `PlatformSpecificData::registerWithCarbon`: takes a fresh id, rejects the
0 sentinel before any OS call, calls `RegisterEventHotKey`, installs the
process-wide Carbon handler when `carbonHotkeys` is empty (unregistering the
hotkey again if that install fails), and enters the `carbonHotkeys` map. -/
def registerWithCarbon (o : MacOracle) (g : MacGlobal) (b : MacBinding)
    (keyCode : Int) (modifiers : ModifierKeys) :
    Bool × MacGlobal × MacBinding × List OsCall :=
  let g := { g with nextCarbonHotkeyId := g.nextCarbonHotkeyId + 1 }
  let carbonKey := convertKeyCodeToCarbon keyCode
  let _carbonModifiers := convertModifiersToCarbon modifiers
  if carbonKey = 0 then
    (false, g, b, [])
  else if ¬ o.registerEventHotKeyOk then
    (false, g, b, [OsCall.registerEventHotKey])
  else
    let b := { b with carbonHotKeyRef := true }
    if g.carbonCount = 0 then
      if ¬ o.installHandlerOk then
        (false, g, { b with carbonHotKeyRef := false },
          [OsCall.registerEventHotKey, OsCall.installApplicationEventHandler,
           OsCall.unregisterEventHotKey])
      else
        (true, { g with handlerInstalled := true, carbonCount := g.carbonCount + 1 },
          { b with inCarbonMap := true },
          [OsCall.registerEventHotKey, OsCall.installApplicationEventHandler])
    else
      (true, { g with carbonCount := g.carbonCount + 1 },
        { b with inCarbonMap := true },
        [OsCall.registerEventHotKey])

/-- Result of one `PlatformSpecificData::registerHotKey` attempt on macOS. -/
structure MacRegResult where
  success : Bool
  globalState : MacGlobal
  binding : MacBinding
  calls : List OsCall
  deriving DecidableEq, Repr

/-- `PlatformSpecificData::registerHotKey` (macOS, both mechanisms compiled
in): fails if already registered; otherwise tries the CGEventTap mechanism
first, and only if it fails tries the Carbon mechanism; first success wins. -/
def macRegisterHotKey (o : MacOracle) (g : MacGlobal) (b : MacBinding)
    (keyCode : Int) (modifiers : ModifierKeys) : MacRegResult :=
  if b.isRegistered then
    ⟨false, g, b, []⟩
  else
    match registerWithCGEventTap o b keyCode modifiers with
    | (true, b1, calls1) =>
        ⟨true, g, { b1 with usingCGEventTap := true, isRegistered := true }, calls1⟩
    | (false, b1, calls1) =>
        match registerWithCarbon o g b1 keyCode modifiers with
        | (true, g1, b2, calls2) =>
            ⟨true, g1, { b2 with usingCarbonAPI := true, isRegistered := true },
              calls1 ++ calls2⟩
        | (false, g1, b2, calls2) =>
            ⟨false, g1, b2, calls1 ++ calls2⟩

/-- No per-binding resource (event tap, run-loop source, map membership,
Carbon hotkey reference) is held, and the binding is not registered. -/
def macNoBindingResources (b : MacBinding) : Prop :=
  b.eventTap = false ∧ b.eventSource = false ∧ b.inCgMap = false ∧
  b.carbonHotKeyRef = false ∧ b.inCarbonMap = false ∧
  b.isRegistered = false ∧ b.usingCGEventTap = false ∧ b.usingCarbonAPI = false

/-- C7: on the macOS dual-strategy backend, the CGEventTap mechanism is tried
first and on its success the Carbon mechanism is never attempted (first
success wins); and whenever the whole registration attempt on a fresh binding
fails, every partially acquired per-binding resource has been released — no
event tap, no run-loop source, no Carbon hotkey reference, no map entry — and
the shared Carbon state (map size, handler installation) is unchanged. -/
theorem c7_fallback_no_partial_state (o : MacOracle) (g : MacGlobal)
    (keyCode : Int) (modifiers : ModifierKeys) :
    ((macRegisterHotKey o g macBinding0 keyCode modifiers).success = false →
      macNoBindingResources (macRegisterHotKey o g macBinding0 keyCode modifiers).binding ∧
      (macRegisterHotKey o g macBinding0 keyCode modifiers).globalState.carbonCount
        = g.carbonCount ∧
      (macRegisterHotKey o g macBinding0 keyCode modifiers).globalState.handlerInstalled
        = g.handlerInstalled) ∧
    (o.tapCreateOk = true → o.runLoopSourceOk = true →
      (macRegisterHotKey o g macBinding0 keyCode modifiers).success = true ∧
      OsCall.registerEventHotKey ∉
        (macRegisterHotKey o g macBinding0 keyCode modifiers).calls) := by
  obtain ⟨t, r, re, ih⟩ := o
  cases t <;> cases r <;> cases re <;> cases ih <;>
    by_cases hk : convertKeyCodeToCarbon keyCode = 0 <;>
    by_cases hc : g.carbonCount = 0 <;>
      simp [macRegisterHotKey, registerWithCGEventTap, registerWithCarbon,
            macNoBindingResources, macBinding0, hk, hc]

/-- C7 witness: with every OS primitive failing, registration of Control+G
fails and no per-binding resource or shared Carbon state persists; and with
all primitives succeeding the CGEventTap mechanism wins without any Carbon
call. -/
theorem c7_fallback_no_partial_state_witness :
    macNoBindingResources
      (macRegisterHotKey ⟨false, false, false, false⟩ macGlobal0 macBinding0 71
        ⟨true, false, false, false⟩).binding ∧
    (macRegisterHotKey macOracleAllOk macGlobal0 macBinding0 71
        ⟨true, false, false, false⟩).success = true :=
  ⟨((c7_fallback_no_partial_state ⟨false, false, false, false⟩ macGlobal0 71
      ⟨true, false, false, false⟩).1 (by decide)).1,
   ((c7_fallback_no_partial_state macOracleAllOk macGlobal0 71
      ⟨true, false, false, false⟩).2 rfl rfl).1⟩

/-! ### Windows exclusive-claim backend (juce_GlobalHotKey_windows.cpp) -/

/-- The punctuation / keypad / special-key `switch` of
`PlatformSpecificData::convertKeyCodeToWin32`. -/
def win32SwitchTable : List (Int × Int) :=
  [(91, 0xDB), (93, 0xDD), (59, 0xBA), (39, 0xDE), (44, 0xBC), (46, 0xBE),
   (47, 0xBF), (92, 0xDC), (96, 0xC0), (45, 0xBD), (61, 0xBB),
   (0x60000, 0x60), (0x60001, 0x61), (0x60002, 0x62), (0x60003, 0x63),
   (0x60004, 0x64), (0x60005, 0x65), (0x60006, 0x66), (0x60007, 0x67),
   (0x60008, 0x68), (0x60009, 0x69),
   (0x70000, 0x6A), (0x70001, 0x6B), (0x70002, 0x6D), (0x70003, 0x6F),
   (0x70004, 0x6E),
   (spaceKey, VK_SPACE), (returnKey, VK_RETURN), (escapeKey, VK_ESCAPE),
   (backspaceKey, VK_BACK), (deleteKey, VK_DELETE), (tabKey, VK_TAB),
   (leftKey, VK_LEFT), (rightKey, VK_RIGHT), (upKey, VK_UP),
   (downKey, VK_DOWN), (homeKey, VK_HOME), (endKey, VK_END),
   (pageUpKey, VK_PRIOR), (pageDownKey, VK_NEXT), (insertKey, VK_INSERT)]

/-- `PlatformSpecificData::convertKeyCodeToWin32`: letters and digits by
identity, function keys by offset to `VK_F1`, then the
punctuation/keypad/special switch; default 0. -/
def convertKeyCodeToWin32 (keyCode : Int) : Int :=
  if 65 ≤ keyCode ∧ keyCode ≤ 90 then keyCode
  else if 48 ≤ keyCode ∧ keyCode ≤ 57 then keyCode
  else if F1Key ≤ keyCode ∧ keyCode ≤ F12Key then VK_F1 + (keyCode - F1Key)
  else lookupD win32SwitchTable keyCode

/-- `PlatformSpecificData::convertModifiersToWin32`: starts from
`MOD_NOREPEAT` (0x4000) and ors in the Win32 modifier bits. -/
def convertModifiersToWin32 (modifiers : ModifierKeys) : Nat :=
  let f : Nat := 0x4000
  let f := if modifiers.ctrl then f ||| 0x2 else f
  let f := if modifiers.shift then f ||| 0x4 else f
  let f := if modifiers.alt then f ||| 0x1 else f
  let f := if modifiers.command then f ||| 0x8 else f
  f

/-- Per-binding state of the exclusive-claim Windows backend (message-only
window plus `RegisterHotKey` id). -/
structure WinExclusiveBinding where
  isRegistered : Bool
  hotkeyId : Nat
  inMap : Bool
  messageWindow : Bool
  deriving DecidableEq, Repr

def winExclusiveBinding0 : WinExclusiveBinding := ⟨false, 0, false, true⟩

/-- `PlatformSpecificData::registerHotKey` (exclusive-claim Windows backend):
fails if already registered or without a message window; takes a fresh id;
rejects the 0 sentinel of its own conversion before calling `RegisterHotKey`;
on an OS grant enters the shared id map. `nextId` is the process-wide
`nextHotkeyId` counter, `osGrants` whether the OS grants the combination. -/
def winExclusiveRegister (osGrants : Bool) (nextId : Nat)
    (b : WinExclusiveBinding) (keyCode : Int) (modifiers : ModifierKeys) :
    Bool × Nat × WinExclusiveBinding × List OsCall :=
  if b.isRegistered ∨ ¬ b.messageWindow then
    (false, nextId, b, [])
  else
    let b := { b with hotkeyId := nextId }
    let win32Key := convertKeyCodeToWin32 keyCode
    let _win32Modifiers := convertModifiersToWin32 modifiers
    if win32Key = 0 then
      (false, nextId + 1, b, [])
    else if osGrants then
      (true, nextId + 1, { b with inMap := true, isRegistered := true },
        [OsCall.winRegisterHotKey])
    else
      (false, nextId + 1, b, [OsCall.winRegisterHotKey])

/-- C2: the claim states that for every unmapped neutral code the
registration attempt fails without any OS primitive being invoked, on every
backend variant. It fails on the CGEventTap mechanism: neutral code 1 is
valid (non-zero) but unmapped (`getPlatformKeyCode` and the Carbon/CG
conversion both return the 0 sentinel), yet the macOS backend invokes
`CGEventTapCreate` and the registration attempt succeeds. -/
theorem c2_invalidKey_counterexample :
    macGetPlatformKeyCode 1 = 0 ∧ convertKeyCodeToCG 1 = 0 ∧
    (macRegisterHotKey macOracleAllOk macGlobal0 macBinding0 1
      modifierKeysNone).success = true ∧
    OsCall.cgEventTapCreate ∈
      (macRegisterHotKey macOracleAllOk macGlobal0 macBinding0 1
        modifierKeysNone).calls := by
  decide

/-- C2 (amended): an unmapped neutral code converts to the 0 sentinel, and
the reject-before-any-OS-call behaviour holds exactly on the two paths that
check for the sentinel: the Carbon mechanism (whose own conversion must be 0)
and the exclusive-claim Windows backend (whose own conversion must be 0) both
fail with no OS primitive invoked and no registration state created. The
CGEventTap and low-level-hook backends perform no such pre-check. -/
theorem c2_invalidKey_amended :
    (∀ (o : MacOracle) (g : MacGlobal) (b : MacBinding) (k : Int)
       (m : ModifierKeys), convertKeyCodeToCarbon k = 0 →
      (registerWithCarbon o g b k m).1 = false ∧
      (registerWithCarbon o g b k m).2.2.2 = [] ∧
      (registerWithCarbon o g b k m).2.2.1 = b) ∧
    (∀ (osGrants : Bool) (nextId : Nat) (k : Int) (m : ModifierKeys),
      convertKeyCodeToWin32 k = 0 →
      (winExclusiveRegister osGrants nextId winExclusiveBinding0 k m).1 = false ∧
      (winExclusiveRegister osGrants nextId winExclusiveBinding0 k m).2.2.2 = [] ∧
      (winExclusiveRegister osGrants nextId winExclusiveBinding0 k m).2.2.1.isRegistered
        = false ∧
      (winExclusiveRegister osGrants nextId winExclusiveBinding0 k m).2.2.1.inMap
        = false) := by
  constructor
  · intro o g b k m hk
    simp [registerWithCarbon, hk]
  · intro osGrants nextId k m hk
    simp [winExclusiveRegister, winExclusiveBinding0, hk]

/-- C2 witness: the amended statement evaluated at the unmapped neutral
code 1 on both sentinel-checking paths. -/
theorem c2_invalidKey_amended_witness :
    (registerWithCarbon macOracleAllOk macGlobal0 macBinding0 1
      modifierKeysNone).1 = false ∧
    (winExclusiveRegister true 1 winExclusiveBinding0 1 modifierKeysNone).1
      = false :=
  ⟨(c2_invalidKey_amended.1 macOracleAllOk macGlobal0 macBinding0 1
      modifierKeysNone (by decide)).1,
   (c2_invalidKey_amended.2 true 1 1 modifierKeysNone (by decide)).1⟩

/-- C9: on macOS the platform key code of `KeyCode::A` (neutral 65) is 0x00
(`kVK_ANSI_A`), which coincides with the invalid sentinel; `'A'` nonetheless
round-trips through the translation tables, but the Carbon registration path
rejects the converted key 0 before calling the OS, so registering
`KeyCode::A` through Carbon always fails with no OS call. -/
theorem c9_keyA_sentinel_collision (o : MacOracle) (g : MacGlobal)
    (b : MacBinding) (m : ModifierKeys) :
    macGetPlatformKeyCode 65 = 0 ∧
    macFromPlatformKeyCode (macGetPlatformKeyCode 65) = 65 ∧
    convertKeyCodeToCarbon 65 = 0 ∧
    (registerWithCarbon o g b 65 m).1 = false ∧
    (registerWithCarbon o g b 65 m).2.2.2 = [] := by
  refine ⟨by decide, by decide, by decide, ?_, ?_⟩ <;>
    simp [registerWithCarbon, show convertKeyCodeToCarbon 65 = 0 from by decide]

/-! ### Low-level keyboard-hook backend (the shared-interception variant) -/

/-- `PlatformSpecificData::HotKeyInfo` of the hook backend (the `owner`
pointer is represented by the numeric id used to queue its callback). -/
structure HookHotKeyInfo where
  keyCode : Int
  modifiers : ModifierKeys
  id : Nat
  deriving DecidableEq, Repr

/-- The process-wide static state of the hook backend: the `keyboardHook`
handle (`true` = installed), the `hookRefCount`, the shared
`registeredHotkeys` map and the `nextHotkeyId` counter. -/
structure HookGlobal where
  keyboardHook : Bool
  hookRefCount : Int
  registered : List (Nat × HookHotKeyInfo)
  nextHotkeyId : Nat
  deriving DecidableEq, Repr

/-- Per-binding state of the hook backend. -/
structure HookBinding where
  isRegistered : Bool
  id : Nat
  deriving DecidableEq, Repr

def hookGlobal0 : HookGlobal := ⟨false, 0, [], 1⟩

def hookBinding0 : HookBinding := ⟨false, 0⟩

/-- Removal of one id from the shared `registeredHotkeys` map. -/
def eraseId (l : List (Nat × HookHotKeyInfo)) (id : Nat) :
    List (Nat × HookHotKeyInfo) :=
  l.filter (fun e => e.1 != id)

/-- `PlatformSpecificData::installHook`: if the hook is already installed the
reference count is incremented; otherwise `SetWindowsHookEx` is called and on
success the count starts at 1. -/
def installHook (setHookOk : Bool) (g : HookGlobal) :
    Bool × HookGlobal × List OsCall :=
  if g.keyboardHook then
    (true, { g with hookRefCount := g.hookRefCount + 1 }, [])
  else if setHookOk then
    (true, { g with keyboardHook := true, hookRefCount := 1 },
      [OsCall.setWindowsHookEx])
  else
    (false, g, [OsCall.setWindowsHookEx])

/-- `PlatformSpecificData::uninstallHook`: decrements the reference count and
only unhooks when it reaches zero. -/
def uninstallHook (g : HookGlobal) : HookGlobal × List OsCall :=
  if ¬ g.keyboardHook then (g, [])
  else if g.hookRefCount - 1 ≤ 0 then
    ({ g with keyboardHook := false, hookRefCount := 0 },
      [OsCall.unhookWindowsHookEx])
  else
    ({ g with hookRefCount := g.hookRefCount - 1 }, [])

/-- `PlatformSpecificData::registerHotKey` (hook backend): installs the hook
if needed, then stores the hotkey in the shared map under a fresh id. Note
that no key-validity check is performed. -/
def hookRegister (setHookOk : Bool) (g : HookGlobal) (b : HookBinding)
    (keyCode : Int) (modifiers : ModifierKeys) :
    Bool × HookGlobal × HookBinding × List OsCall :=
  if b.isRegistered then
    (false, g, b, [])
  else
    match installHook setHookOk g with
    | (false, g1, calls) => (false, g1, b, calls)
    | (true, g1, calls) =>
        let id := g1.nextHotkeyId
        let g2 := { g1 with
          nextHotkeyId := id + 1,
          registered := (id, ⟨keyCode, modifiers, id⟩) :: eraseId g1.registered id }
        (true, g2, { b with isRegistered := true, id := id }, calls)

/-- `PlatformSpecificData::unregisterHotKey` (hook backend): removes the
binding from the shared map and calls `uninstallHook` only when the map has
become empty. -/
def hookUnregister (g : HookGlobal) (b : HookBinding) :
    HookGlobal × HookBinding × List OsCall :=
  if ¬ b.isRegistered then (g, b, [])
  else
    let g1 := { g with registered := eraseId g.registered b.id }
    let b1 := { b with isRegistered := false }
    if g1.registered.isEmpty then
      let u := uninstallHook g1
      (u.1, b1, u.2)
    else
      (g1, b1, [])

/-- C4: the claim states that unregistering the last registered binding
brings the shared hook reference count back to zero and uninstalls the hook.
This holds for a single binding, but fails as soon as two bindings were
live simultaneously: `installHook` increments `hookRefCount` on every
registration while `uninstallHook` runs only once, when the map empties, so
after registering two bindings and unregistering both, the count is stuck at
1 and the low-level hook is never uninstalled. -/
theorem c4_hook_refcount_failing_trace :
    -- one binding: register then unregister tears the hook down
    (let r1 := hookRegister true hookGlobal0 hookBinding0 71 modifierKeysNone
     let u1 := hookUnregister r1.2.1 r1.2.2.1
     u1.1.keyboardHook = false ∧ u1.1.hookRefCount = 0 ∧
       OsCall.unhookWindowsHookEx ∈ u1.2.2) ∧
    -- two bindings: after both are unregistered the hook survives with count 1
    (let r1 := hookRegister true hookGlobal0 hookBinding0 71 modifierKeysNone
     let r2 := hookRegister true r1.2.1 hookBinding0 72 modifierKeysNone
     let u1 := hookUnregister r2.2.1 r1.2.2.1
     let u2 := hookUnregister u1.1 r2.2.2.1
     u2.1.registered = [] ∧ u2.1.keyboardHook = true ∧
       u2.1.hookRefCount = 1 ∧ OsCall.unhookWindowsHookEx ∉ u2.2.2) := by
  decide

/-! ### The hook event procedure (shared-interception dispatch) -/

def WM_KEYDOWN : Nat := 0x100
def WM_SYSKEYDOWN : Nat := 0x104

/-- `PlatformSpecificData::matchesHotKey` (hook backend): the expected
virtual-key code comes from `KeyCode::getPlatformKeyCode`; the 0 sentinel
never matches; the key must match exactly and the current modifier flags must
equal the registered ones exactly. -/
def matchesHotKey (hotkey : HookHotKeyInfo) (vkCode : Int)
    (currentModifiers : ModifierKeys) : Bool :=
  let expectedVkCode := winGetPlatformKeyCode hotkey.keyCode
  if expectedVkCode = 0 then false
  else if vkCode ≠ expectedVkCode then false
  else currentModifiers.getRawFlags == hotkey.modifiers.getRawFlags

/-- The dispatch loop of `keyboardHookProc`: every registered hotkey is
tested and each match queues one asynchronous callback; the loop never
returns early. -/
def hookLoopFired (l : List (Nat × HookHotKeyInfo)) (vkCode : Int)
    (currentModifiers : ModifierKeys) : List Nat :=
  match l with
  | [] => []
  | (id, info) :: rest =>
      if matchesHotKey info vkCode currentModifiers then
        id :: hookLoopFired rest vkCode currentModifiers
      else
        hookLoopFired rest vkCode currentModifiers

/-- Observable outcome of one `keyboardHookProc` invocation: which bindings
had their callback queued, and whether the event was passed to the next hook
(`CallNextHookEx`) rather than consumed. -/
structure HookProcResult where
  queued : List Nat
  passesEventOn : Bool
  deriving DecidableEq, Repr

/-- `PlatformSpecificData::keyboardHookProc`: on a key-down event with
`nCode ≥ 0` every registered hotkey is checked; the return value is always
`CallNextHookEx` — the event is never consumed. -/
def keyboardHookProc (g : HookGlobal) (nCode : Int) (message : Nat)
    (vkCode : Int) (currentModifiers : ModifierKeys) : HookProcResult :=
  if 0 ≤ nCode ∧ (message = WM_KEYDOWN ∨ message = WM_SYSKEYDOWN) then
    ⟨hookLoopFired g.registered vkCode currentModifiers, true⟩
  else
    ⟨[], true⟩

theorem hookLoopFired_eq_filter (l : List (Nat × HookHotKeyInfo))
    (vkCode : Int) (m : ModifierKeys) :
    hookLoopFired l vkCode m =
      (l.filter (fun e => matchesHotKey e.2 vkCode m)).map Prod.fst := by
  induction l with
  | nil => rfl
  | cons e rest ih =>
    obtain ⟨id, info⟩ := e
    cases h : matchesHotKey info vkCode m <;>
      simp [hookLoopFired, List.filter_cons, h, ih]

/-- C6: on the shared-interception (low-level hook) backend, every keydown
event is checked against the full table of registered bindings — exactly
those whose `(key, modifiers)` match the event fire, with no
first-match-wins cutoff — and the physical event is always passed on to the
next hook, never consumed. -/
theorem c6_hook_all_match_never_consumed (g : HookGlobal) (nCode : Int)
    (message : Nat) (vkCode : Int) (currentModifiers : ModifierKeys) :
    (keyboardHookProc g nCode message vkCode currentModifiers).passesEventOn
      = true ∧
    (keyboardHookProc g nCode message vkCode currentModifiers).queued =
      (if 0 ≤ nCode ∧ (message = WM_KEYDOWN ∨ message = WM_SYSKEYDOWN) then
        (g.registered.filter
          (fun e => matchesHotKey e.2 vkCode currentModifiers)).map Prod.fst
      else []) := by
  by_cases h : 0 ≤ nCode ∧ (message = WM_KEYDOWN ∨ message = WM_SYSKEYDOWN) <;>
    simp [keyboardHookProc, h, hookLoopFired_eq_filter]

/-! ### GlobalHotKeyManager (juce_GlobalHotKeyManager.cpp)

The two `std::map` members are modelled as association lists; insertion
over-writes any existing entry for the key. The single synchronous
registration attempt performed by the `GlobalHotKey` constructor is
abstracted by its boolean outcome `attemptSucceeds`, and the stored
callback by a numeric tag. -/

def lookupS {α : Type} : List (String × α) → String → Option α
  | [], _ => none
  | (a, b) :: r, k => if k = a then some b else lookupS r k

def eraseKeyS {α : Type} (l : List (String × α)) (k : String) :
    List (String × α) :=
  l.filter (fun e => e.1 != k)

theorem lookupS_eraseKeyS_self {α : Type} (l : List (String × α))
    (k : String) : lookupS (eraseKeyS l k) k = none := by
  induction l with
  | nil => rfl
  | cons e r ih =>
    obtain ⟨a, b⟩ := e
    simp only [eraseKeyS, List.filter_cons] at ih ⊢
    by_cases h : a = k
    · simp [h, ih]
    · have hk : ¬ k = a := fun hh => h hh.symm
      simp [h, lookupS, hk, ih]

theorem lookupS_isSome_iff {α : Type} (l : List (String × α)) (k : String) :
    (lookupS l k).isSome = true ↔ k ∈ l.map Prod.fst := by
  induction l with
  | nil => simp [lookupS]
  | cons e r ih =>
    obtain ⟨a, b⟩ := e
    by_cases h : k = a
    · simp [lookupS, h]
    · simp [lookupS, h, ih]

theorem map_fst_eraseKeyS {α : Type} (l : List (String × α)) (k : String) :
    (eraseKeyS l k).map Prod.fst = (l.map Prod.fst).filter (fun a => a != k) := by
  induction l with
  | nil => rfl
  | cons e r ih =>
    obtain ⟨a, b⟩ := e
    simp only [eraseKeyS, List.filter_cons] at ih ⊢
    by_cases h : a = k <;> simp [h, ih]

/-- The stored `GlobalHotKey` object of a successful registration. -/
structure StoredHotKey where
  keyCode : Int
  modifiers : ModifierKeys
  callback : Nat
  deriving DecidableEq, Repr

/-- `GlobalHotKeyManager::HotKeyInfo`. -/
structure ManagerHotKeyInfo where
  identifier : String
  keyCode : Int
  modifiers : ModifierKeys
  callback : Nat
  isRegistered : Bool
  deriving DecidableEq, Repr

/-- The two map members of `GlobalHotKeyManager`. -/
structure ManagerState where
  registeredHotKeys : List (String × StoredHotKey)
  hotKeyInfos : List (String × ManagerHotKeyInfo)
  deriving DecidableEq, Repr

def managerState0 : ManagerState := ⟨[], []⟩

/-- `GlobalHotKeyManager::isHotKeyRegistered`. -/
def isHotKeyRegistered (st : ManagerState) (identifier : String) : Bool :=
  (lookupS st.registeredHotKeys identifier).isSome

/-- `GlobalHotKeyManager::getHotKeyInfo` (`none` models `nullptr`). -/
def getHotKeyInfo (st : ManagerState) (identifier : String) :
    Option ManagerHotKeyInfo :=
  lookupS st.hotKeyInfos identifier

/-- `GlobalHotKeyManager::getNumRegisteredHotKeys`. -/
def getNumRegisteredHotKeys (st : ManagerState) : Nat :=
  st.registeredHotKeys.length

/-- `GlobalHotKeyManager::unregisterHotKey`: erases from both maps when the
identifier is found in `registeredHotKeys`, otherwise returns false and
touches nothing. -/
def unregisterHotKeyM (st : ManagerState) (identifier : String) :
    Bool × ManagerState :=
  if (lookupS st.registeredHotKeys identifier).isSome then
    (true, ⟨eraseKeyS st.registeredHotKeys identifier,
            eraseKeyS st.hotKeyInfos identifier⟩)
  else
    (false, st)

/-- `GlobalHotKeyManager::registerHotKey`: first unregisters any existing
binding under the identifier, then performs one registration attempt (the
`GlobalHotKey` constructor); on success stores the new binding in both maps,
on failure returns false leaving the identifier unbound. -/
def registerHotKeyM (attemptSucceeds : Bool) (st : ManagerState)
    (identifier : String) (keyCode : Int) (modifiers : ModifierKeys)
    (callback : Nat) : Bool × ManagerState :=
  let st := if isHotKeyRegistered st identifier then
              (unregisterHotKeyM st identifier).2
            else st
  if attemptSucceeds then
    (true,
      ⟨(identifier, ⟨keyCode, modifiers, callback⟩) ::
          eraseKeyS st.registeredHotKeys identifier,
       (identifier, ⟨identifier, keyCode, modifiers, callback, true⟩) ::
          eraseKeyS st.hotKeyInfos identifier⟩)
  else
    (false, st)

/-- `GlobalHotKeyManager::unregisterAllHotKeys`. -/
def unregisterAllHotKeys (_st : ManagerState) : ManagerState := ⟨[], []⟩

/-- C3: registering under an identifier first drops any existing binding for
it; if the new attempt succeeds the call returns true and the identifier maps
to exactly the new binding; if the attempt fails the call returns false and
the identifier ends unbound — the old binding is not restored. -/
theorem c3_register_replace_or_unbind (st : ManagerState) (identifier : String)
    (keyCode : Int) (modifiers : ModifierKeys) (callback : Nat) :
    (registerHotKeyM true st identifier keyCode modifiers callback).1 = true ∧
    lookupS (registerHotKeyM true st identifier keyCode modifiers
        callback).2.registeredHotKeys identifier =
      some ⟨keyCode, modifiers, callback⟩ ∧
    (registerHotKeyM false st identifier keyCode modifiers callback).1 = false ∧
    isHotKeyRegistered
      (registerHotKeyM false st identifier keyCode modifiers callback).2
      identifier = false := by
  refine ⟨rfl, by simp [registerHotKeyM, lookupS], rfl, ?_⟩
  by_cases h : (lookupS st.registeredHotKeys identifier).isSome = true
  · simp [registerHotKeyM, unregisterHotKeyM, isHotKeyRegistered, h,
      lookupS_eraseKeyS_self]
  · rw [Bool.not_eq_true] at h
    simp [registerHotKeyM, unregisterHotKeyM, isHotKeyRegistered, h]

/-! ### Operation sequences over the manager (for the map-synchrony invariant) -/

inductive ManagerOp where
  | registerOp : Bool → String → Int → ModifierKeys → Nat → ManagerOp
  | unregisterOp : String → ManagerOp
  | unregisterAllOp : ManagerOp

def applyOp (st : ManagerState) : ManagerOp → ManagerState
  | .registerOp succ identifier keyCode modifiers callback =>
      (registerHotKeyM succ st identifier keyCode modifiers callback).2
  | .unregisterOp identifier => (unregisterHotKeyM st identifier).2
  | .unregisterAllOp => unregisterAllHotKeys st

def applyOps (ops : List ManagerOp) : ManagerState :=
  ops.foldl applyOp managerState0

/-- The key sets (in fact key sequences) of the two maps coincide. -/
def managerMapsAligned (st : ManagerState) : Prop :=
  st.registeredHotKeys.map Prod.fst = st.hotKeyInfos.map Prod.fst

theorem aligned_applyOp (st : ManagerState) (op : ManagerOp)
    (h : managerMapsAligned st) : managerMapsAligned (applyOp st op) := by
  cases op with
  | registerOp succ identifier keyCode modifiers callback =>
    have h1 : managerMapsAligned
        (if isHotKeyRegistered st identifier then
          (unregisterHotKeyM st identifier).2 else st) := by
      by_cases hr : isHotKeyRegistered st identifier
      · simp only [hr, if_true]
        unfold unregisterHotKeyM
        rw [isHotKeyRegistered] at hr
        simp only [hr, if_true]
        unfold managerMapsAligned at h ⊢
        simp [map_fst_eraseKeyS, h]
      · simpa [hr] using h
    cases succ
    · simpa [applyOp, registerHotKeyM] using h1
    · unfold applyOp registerHotKeyM
      unfold managerMapsAligned at h1 ⊢
      simp [map_fst_eraseKeyS, h1]
  | unregisterOp identifier =>
    unfold applyOp unregisterHotKeyM
    by_cases hr : (lookupS st.registeredHotKeys identifier).isSome
    · unfold managerMapsAligned at h ⊢
      simp [hr, map_fst_eraseKeyS, h]
    · simpa [hr] using h
  | unregisterAllOp => rfl

theorem aligned_applyOps_from (ops : List ManagerOp) :
    ∀ st : ManagerState, managerMapsAligned st →
      managerMapsAligned (ops.foldl applyOp st) := by
  induction ops with
  | nil => intro st h; exact h
  | cons op rest ih =>
    intro st h
    exact ih _ (aligned_applyOp st op h)

/-- C10: after any sequence of register / unregister / unregister-all
operations the two manager maps have identical key sets, so
`getHotKeyInfo` returns a value exactly when `isHotKeyRegistered` is true,
and `getNumRegisteredHotKeys` equals the number of stored `HotKeyInfo`
entries. -/
theorem c10_manager_maps_in_sync (ops : List ManagerOp) (identifier : String) :
    (isHotKeyRegistered (applyOps ops) identifier = true ↔
      (getHotKeyInfo (applyOps ops) identifier).isSome = true) ∧
    getNumRegisteredHotKeys (applyOps ops) =
      (applyOps ops).hotKeyInfos.length := by
  have ha : managerMapsAligned (applyOps ops) :=
    aligned_applyOps_from ops managerState0 rfl
  unfold managerMapsAligned at ha
  constructor
  · rw [isHotKeyRegistered, getHotKeyInfo, lookupS_isSome_iff,
        lookupS_isSome_iff, ha]
  · rw [getNumRegisteredHotKeys, ← List.length_map _ Prod.fst, ha,
        List.length_map]

/-! ### Concrete instantiations of the remaining claim theorems -/

def hookDemoMods : ModifierKeys := ⟨true, true, false, false⟩

/-- A shared-hook state with two bindings registered to the identical
Control+Shift+G combination. -/
def hookDemoGlobal : HookGlobal :=
  ⟨true, 2, [(1, ⟨71, hookDemoMods, 1⟩), (2, ⟨71, hookDemoMods, 2⟩)], 3⟩

/-- C6 witness: two bindings on the identical `(key, modifiers)` pair both
fire for one simulated keydown, and the event is still passed on. -/
theorem c6_hook_all_match_never_consumed_witness :
    (keyboardHookProc hookDemoGlobal 0 0x100 71 hookDemoMods).passesEventOn
      = true ∧
    (keyboardHookProc hookDemoGlobal 0 0x100 71 hookDemoMods).queued
      = [1, 2] := by
  refine ⟨(c6_hook_all_match_never_consumed hookDemoGlobal 0 0x100 71
    hookDemoMods).1, ?_⟩
  rw [(c6_hook_all_match_never_consumed hookDemoGlobal 0 0x100 71
    hookDemoMods).2]
  decide

/-- C3 witness: re-registering "show" with a failing attempt leaves it
unbound, while a successful registration returns true. -/
theorem c3_register_replace_or_unbind_witness :
    (registerHotKeyM true managerState0 "show" 71 hookDemoMods 0).1 = true ∧
    isHotKeyRegistered
      (registerHotKeyM false managerState0 "show" 71 hookDemoMods 0).2
      "show" = false :=
  ⟨(c3_register_replace_or_unbind managerState0 "show" 71 hookDemoMods 0).1,
   (c3_register_replace_or_unbind managerState0 "show" 71 hookDemoMods
      0).2.2.2⟩

/-- C9 witness: the Carbon mechanism rejects `KeyCode::A` even with every OS
primitive succeeding. -/
theorem c9_keyA_sentinel_collision_witness :
    (registerWithCarbon macOracleAllOk macGlobal0 macBinding0 65
      modifierKeysNone).1 = false :=
  (c9_keyA_sentinel_collision macOracleAllOk macGlobal0 macBinding0
    modifierKeysNone).2.2.2.1

/-- C10 witness: after one successful registration the two maps agree on
"show" and on their sizes. -/
theorem c10_manager_maps_in_sync_witness :
    getNumRegisteredHotKeys
        (applyOps [ManagerOp.registerOp true "show" 71 hookDemoMods 0]) =
      (applyOps [ManagerOp.registerOp true "show" 71 hookDemoMods 0]).hotKeyInfos.length :=
  (c10_manager_maps_in_sync [ManagerOp.registerOp true "show" 71 hookDemoMods 0]
    "show").2
